import Mathlib

/-!
Verification of the spaCy text-annotation adapter
(`src/ai-services/chatbot/src/nlp/spacyProcessor.py`).

The adapter reads an `AnnotatedDocument` produced by an external pretrained
Spanish model (spaCy's `es_core_news_sm`, a black box here) and reformats a
fixed set of fields into a plain result record, plus a lexicon sentiment
label and a keyword list.  The external model is embedded as an arbitrary
function `String → AnnotatedDocument`; everything the adapter itself does is
translated below from the Python source.
-/

/-- One token of the model's output.  Fields keep spaCy's attribute names
(`token.text`, `token.lemma_`, `token.pos_`, `token.tag_`, `token.dep_`,
`token.head.text`, `token.is_alpha`, `token.is_stop`, `token.is_punct`);
`head_text` is the text of the token's syntactic head, the only part of the
head the adapter reads. -/
structure Token where
  text : String
  lemma_ : String
  pos_ : String
  tag_ : String
  dep_ : String
  head_text : String
  is_alpha : Bool
  is_stop : Bool
  is_punct : Bool
  deriving DecidableEq

/-- One entity span of the model's output (`ent.text`, `ent.label_`,
`ent.start_char`, `ent.end_char`). -/
structure EntitySpan where
  text : String
  label_ : String
  start_char : Nat
  end_char : Nat
  deriving DecidableEq

/-- The model's annotation object: `doc.text` (the full input text),
the ordered token sequence (`for token in doc`), and the ordered entity
sequence (`doc.ents`). -/
structure AnnotatedDocument where
  text : String
  tokens : List Token
  ents : List EntitySpan
  deriving DecidableEq

/-- An entry of `result["tokens"]`. -/
structure TokenRecord where
  text : String
  lemma_ : String
  pos : String
  tag : String
  is_alpha : Bool
  is_stop : Bool
  is_punct : Bool
  deriving DecidableEq

/-- An entry of `result["pos_tags"]`. -/
structure PosRecord where
  text : String
  pos : String
  tag : String
  deriving DecidableEq

/-- An entry of `result["dependencies"]`. -/
structure DepRecord where
  text : String
  dep : String
  head : String
  deriving DecidableEq

/-- An entry of `result["entities"]`. -/
structure EntityRecord where
  text : String
  label : String
  start : Nat
  stop : Nat
  deriving DecidableEq

/-- The adapter's output record (the JSON object `process_text` returns). -/
structure AnnotationResult where
  tokens : List TokenRecord
  entities : List EntityRecord
  pos_tags : List PosRecord
  dependencies : List DepRecord
  lemmas : List String
  sentiment : String
  keywords : List String
  deriving DecidableEq

/-- Python's substring test `sub in s`: the character sequence of `sub`
occurs contiguously inside the character sequence of `s`. -/
def str_contains (s sub : String) : Bool :=
  decide (sub.data <:+: s.data)

/-- Python's `str.lower`, character by character: the same ASCII case
folding Lean's `String.toLower` applies, written over the character list so
that it evaluates by kernel reduction. -/
def str_lower (s : String) : String :=
  ⟨s.data.map Char.toLower⟩

/-- The positive lexicon (`positive_words` in `_analyze_sentiment`). -/
def positive_words : List String :=
  ["bueno", "excelente", "genial", "perfecto", "increíble", "fantástico"]

/-- The negative lexicon (`negative_words` in `_analyze_sentiment`). -/
def negative_words : List String :=
  ["malo", "terrible", "horrible", "pésimo", "deficiente"]

/-- `sum(1 for word in positive_words if word in text_lower)` of
`_analyze_sentiment`, with `text_lower = doc.text.lower()`. -/
def positive_count (doc : AnnotatedDocument) : Nat :=
  (positive_words.filter (fun word => str_contains (str_lower doc.text) word)).length

/-- `sum(1 for word in negative_words if word in text_lower)` of
`_analyze_sentiment`. -/
def negative_count (doc : AnnotatedDocument) : Nat :=
  (negative_words.filter (fun word => str_contains (str_lower doc.text) word)).length

/-- `SpacyProcessor._analyze_sentiment`. -/
def analyze_sentiment (doc : AnnotatedDocument) : String :=
  if positive_count doc > negative_count doc then "positive"
  else if negative_count doc > positive_count doc then "negative"
  else "neutral"

/-- The filter of `SpacyProcessor._extract_keywords`: coarse POS is noun,
adjective or proper noun, not a stopword, not punctuation, and the token's
surface text is longer than 2 characters. -/
def keyword_token (t : Token) : Bool :=
  (t.pos_ == "NOUN" || t.pos_ == "ADJ" || t.pos_ == "PROPN") &&
    !t.is_stop && !t.is_punct && t.text.length > 2

/-- `SpacyProcessor._extract_keywords`: collect `token.lemma_.lower()` of
every token passing the filter, then `list(set(keywords))` (duplicates
removed, order unspecified; the embedding keeps first occurrences). -/
def extract_keywords (doc : AnnotatedDocument) : List String :=
  ((doc.tokens.filter keyword_token).map (fun t => (str_lower t.lemma_))).dedup

/-- The `result["tokens"]` entry built from one token. -/
def token_record (t : Token) : TokenRecord :=
  { text := t.text, lemma_ := t.lemma_, pos := t.pos_, tag := t.tag_,
    is_alpha := t.is_alpha, is_stop := t.is_stop, is_punct := t.is_punct }

/-- The `result["pos_tags"]` entry built from one token. -/
def pos_record (t : Token) : PosRecord :=
  { text := t.text, pos := t.pos_, tag := t.tag_ }

/-- The `result["dependencies"]` entry built from one token. -/
def dep_record (t : Token) : DepRecord :=
  { text := t.text, dep := t.dep_, head := t.head_text }

/-- The token loop of `process_text`: walking the document's tokens in order,
build the `tokens`, `lemmas` and `pos_tags` sequences, and append a
dependency entry exactly when `token.dep_ != "ROOT"`. -/
def token_loop : List Token → List TokenRecord × List String × List PosRecord × List DepRecord
  | [] => ([], [], [], [])
  | t :: ts =>
    let rest := token_loop ts
    (token_record t :: rest.1,
     (str_lower t.lemma_) :: rest.2.1,
     pos_record t :: rest.2.2.1,
     if t.dep_ ≠ "ROOT" then dep_record t :: rest.2.2.2 else rest.2.2.2)

/-- `SpacyProcessor.process_text`: run the model `nlp` on `text`, then
extract the fields of the result from the returned document. -/
def process_text (nlp : String → AnnotatedDocument) (text : String) : AnnotationResult :=
  let doc := nlp text
  let fields := token_loop doc.tokens
  { tokens := fields.1,
    entities := doc.ents.map (fun e =>
      { text := e.text, label := e.label_, start := e.start_char, stop := e.end_char }),
    pos_tags := fields.2.2.1,
    dependencies := fields.2.2.2,
    lemmas := fields.2.1,
    sentiment := analyze_sentiment doc,
    keywords := extract_keywords doc }

/-- The usage line `main` prints when the argument count is wrong. -/
def usage_message : String := "Usage: python spacyProcessor.py '<text>'"

/-- The remediation line `SpacyProcessor.__init__` prints when the Spanish
model cannot be loaded. -/
def model_error_message : String :=
  "Error: Spanish spaCy model not found. Please install with: python -m spacy download es_core_news_sm"

/-- Observable outcome of one CLI run: the diagnostic lines printed, the
process exit code, and the JSON document written to stdout (`none` when no
JSON is produced). -/
structure CLIResult where
  printed : List String
  exit_code : Nat
  json : Option AnnotationResult

/-- Lean model of the CLI entry point `main` of the source.  `argv` models `sys.argv` (the script name
followed by the positional arguments); `load` models the attempt of
`SpacyProcessor.__init__` to load the model (`none` when `spacy.load`
raises `OSError`).  `main` first checks `len(sys.argv) != 2`, then
constructs the processor, then processes `sys.argv[1]` and prints the JSON
result. -/
def main_cli (load : Option (String → AnnotatedDocument)) (argv : List String) : CLIResult :=
  if argv.length ≠ 2 then
    { printed := [usage_message], exit_code := 1, json := none }
  else
    match load with
    | none => { printed := [model_error_message], exit_code := 1, json := none }
    | some nlp =>
      { printed := [], exit_code := 0,
        json := some (process_text nlp ((argv.get? 1).getD "")) }

/-- Closed form of the token loop: the first three sequences are maps over
the tokens in document order, the fourth maps over the non-root tokens. -/
theorem token_loop_eq (ts : List Token) :
    token_loop ts =
      (ts.map token_record, ts.map (fun t => (str_lower t.lemma_)), ts.map pos_record,
       (ts.filter (fun t => t.dep_ ≠ "ROOT")).map dep_record) := by
  induction ts with
  | nil => rfl
  | cons t ts ih =>
    simp only [token_loop, ih, List.map_cons, List.filter_cons]
    by_cases h : t.dep_ = "ROOT" <;> simp [h]

/-- Counting: the non-root tokens number the tokens minus the root ones. -/
theorem length_filter_not_root (ts : List Token) :
    (ts.filter (fun t => t.dep_ ≠ "ROOT")).length =
      ts.length - (ts.filter (fun t => t.dep_ = "ROOT")).length := by
  induction ts with
  | nil => rfl
  | cons t ts ih =>
    have hle := List.length_filter_le (fun t => decide (t.dep_ = "ROOT")) ts
    simp only [ne_eq, decide_not] at ih ⊢
    by_cases h : t.dep_ = "ROOT" <;> simp [List.filter_cons, h] <;> omega

/-- C1: for every model and every input text, the result of `process_text`
has `tokens`, `pos_tags` and `lemmas` sequences of equal length, each equal
to the number of tokens of the document the model produced, and each is the
image of the document's token sequence in left-to-right order. -/
theorem C1_token_pos_lemma_alignment (nlp : String → AnnotatedDocument) (text : String) :
    (process_text nlp text).tokens = ((nlp text).tokens).map token_record ∧
    (process_text nlp text).pos_tags = ((nlp text).tokens).map pos_record ∧
    (process_text nlp text).lemmas = ((nlp text).tokens).map (fun t => (str_lower t.lemma_)) ∧
    (process_text nlp text).tokens.length = (nlp text).tokens.length ∧
    (process_text nlp text).pos_tags.length = (nlp text).tokens.length ∧
    (process_text nlp text).lemmas.length = (nlp text).tokens.length := by
  simp [process_text, token_loop_eq]

/-- C2: a token contributes a dependency record (its text, its dependency
label, its head's text) exactly when its dependency label is not "ROOT",
in document order, so the `dependencies` sequence is as long as the token
sequence minus the number of root tokens. -/
theorem C2_dependencies_non_root (nlp : String → AnnotatedDocument) (text : String) :
    (process_text nlp text).dependencies =
      (((nlp text).tokens).filter (fun t => t.dep_ ≠ "ROOT")).map dep_record ∧
    (process_text nlp text).dependencies.length =
      (nlp text).tokens.length -
        (((nlp text).tokens).filter (fun t => t.dep_ = "ROOT")).length := by
  constructor
  · simp [process_text, token_loop_eq]
  · simp only [process_text, token_loop_eq]
    simpa using length_filter_not_root (nlp text).tokens

/-- C3: the sentiment heuristic counts lexicon words by substring
containment in the lowercased document text (an occurrence inside a longer
word counts, and each lexicon word is counted at most once), and compares
the two counts: strictly more positive matches gives "positive", strictly
more negative matches gives "negative", a tie gives "neutral". -/
theorem C3_sentiment_heuristic (doc : AnnotatedDocument) :
    (∀ w : String, str_contains (str_lower doc.text) w = true ↔
      ∃ pre post : List Char, ((str_lower doc.text)).data = pre ++ w.data ++ post) ∧
    positive_count doc ≤ positive_words.length ∧
    negative_count doc ≤ negative_words.length ∧
    (positive_count doc > negative_count doc ↔ analyze_sentiment doc = "positive") ∧
    (negative_count doc > positive_count doc ↔ analyze_sentiment doc = "negative") ∧
    (positive_count doc = negative_count doc ↔ analyze_sentiment doc = "neutral") := by
  refine ⟨fun w => ?_, List.length_filter_le _ _, List.length_filter_le _ _, ?_, ?_, ?_⟩ <;>
    try (unfold analyze_sentiment; split_ifs <;> simp_all <;> omega)
  simp only [str_contains, List.IsInfix, decide_eq_true_eq, List.append_assoc]
  exact ⟨fun ⟨p, q, h⟩ => ⟨p, q, h.symm⟩, fun ⟨p, q, h⟩ => ⟨p, q, h.symm⟩⟩

/-- C4: the keyword list contains a string exactly when it is the
lowercased lemma of some token whose coarse POS is noun, adjective or
proper noun, that is not a stopword, not punctuation, and whose surface
text is longer than 2 characters; the list holds no duplicates. -/
theorem C4_keyword_selection (doc : AnnotatedDocument) :
    (∀ s : String, s ∈ extract_keywords doc ↔
      ∃ t, t ∈ doc.tokens ∧ (t.pos_ = "NOUN" ∨ t.pos_ = "ADJ" ∨ t.pos_ = "PROPN") ∧
        t.is_stop = false ∧ t.is_punct = false ∧ 2 < t.text.length ∧
        s = (str_lower t.lemma_)) ∧
    (extract_keywords doc).Nodup := by
  constructor
  · intro s
    simp only [extract_keywords, List.mem_dedup, List.mem_map, List.mem_filter, keyword_token,
      Bool.and_eq_true, Bool.or_eq_true, beq_iff_eq, Bool.not_eq_true', decide_eq_true_eq,
      or_assoc]
    constructor
    · rintro ⟨t, ⟨ht, ⟨⟨⟨hpos, hstop⟩, hpunct⟩, hlen⟩⟩, hs⟩
      exact ⟨t, ht, hpos, hstop, hpunct, hlen, hs.symm⟩
    · rintro ⟨t, ht, hpos, hstop, hpunct, hlen, hs⟩
      exact ⟨t, ⟨ht, ⟨⟨⟨hpos, hstop⟩, hpunct⟩, hlen⟩⟩, hs.symm⟩
  · unfold extract_keywords
    exact List.nodup_dedup _

/-- A document whose single token has a three-character surface form but a
two-character lemma: the keyword filter tests the surface length, so the
emitted keyword entry "mi" is shorter than 3 characters. -/
def short_lemma_doc : AnnotatedDocument :=
  { text := "mis",
    tokens := [{ text := "mis", lemma_ := "mi", pos_ := "NOUN", tag_ := "NOUN",
                 dep_ := "ROOT", head_text := "mis", is_alpha := true,
                 is_stop := false, is_punct := false }],
    ents := [] }

/-- C5 counterexample: the keyword length filter reads the token's surface
text, not the emitted lemma, so a keyword entry can be shorter than 3
characters. -/
theorem C5_counterexample :
    "mi" ∈ extract_keywords short_lemma_doc ∧ "mi".length < 3 := by decide

/-- C5 amended: every keyword entry is the lowercased lemma of some token
of the document whose surface text is longer than 2 characters and which is
neither a stopword nor punctuation (the 2-character bound constrains the
originating token's surface text, not the emitted lemma string). -/
theorem C5_keyword_provenance (doc : AnnotatedDocument) (s : String)
    (h : s ∈ extract_keywords doc) :
    ∃ t, t ∈ doc.tokens ∧ s = (str_lower t.lemma_) ∧ 2 < t.text.length ∧
      t.is_stop = false ∧ t.is_punct = false := by
  simp only [extract_keywords, List.mem_dedup, List.mem_map, List.mem_filter, keyword_token,
    Bool.and_eq_true, Bool.not_eq_true', decide_eq_true_eq] at h
  obtain ⟨t, ⟨ht, ⟨⟨⟨hpos, hstop⟩, hpunct⟩, hlen⟩⟩, hs⟩ := h
  exact ⟨t, ht, hs.symm, hlen, hstop, hpunct⟩

/-- Witness for C5: the provenance theorem applied to the concrete document
`short_lemma_doc` and its keyword entry "mi". -/
theorem C5_keyword_provenance_witness :
    ∃ t, t ∈ short_lemma_doc.tokens ∧ "mi" = (str_lower t.lemma_) ∧ 2 < t.text.length ∧
      t.is_stop = false ∧ t.is_punct = false :=
  C5_keyword_provenance short_lemma_doc "mi" (by decide)

/-- C6 counterexample: the two lexicons are not both six words long — the
negative lexicon of the source has five words. -/
theorem C6_counterexample :
    ¬ (positive_words.length = 6 ∧ negative_words.length = 6) := by decide

/-- C6 amended: the sentiment containment checks run against two fixed
Spanish lexicons, the six-word positive one and the five-word negative one,
with exactly the listed words, and the sentiment label is a function of the
two match counts over those lists. -/
theorem C6_fixed_lexicons :
    positive_words = ["bueno", "excelente", "genial", "perfecto", "increíble", "fantástico"] ∧
    positive_words.length = 6 ∧
    negative_words = ["malo", "terrible", "horrible", "pésimo", "deficiente"] ∧
    negative_words.length = 5 ∧
    ∀ doc : AnnotatedDocument,
      analyze_sentiment doc =
        (let p := ((["bueno", "excelente", "genial", "perfecto", "increíble",
                     "fantástico"] : List String).filter
                    (fun w => str_contains (str_lower doc.text) w)).length
         let n := ((["malo", "terrible", "horrible", "pésimo",
                     "deficiente"] : List String).filter
                    (fun w => str_contains (str_lower doc.text) w)).length
         if p > n then "positive" else if n > p then "negative" else "neutral") :=
  ⟨rfl, rfl, rfl, rfl, fun _ => rfl⟩

/-- C7: with the model and the lexicons fixed, `process_text` is a
deterministic pure function of its input: equal input texts give identical
results (the embedding is a total function, so there is no side effect to
observe beyond the model invocation itself). -/
theorem C7_deterministic (nlp : String → AnnotatedDocument) (t₁ t₂ : String)
    (h : t₁ = t₂) : process_text nlp t₁ = process_text nlp t₂ := by rw [h]

/-- A fixed trivial model used to evaluate the CLI theorems on concrete
inputs: it returns a document with the input as text and no annotations. -/
def echo_model : String → AnnotatedDocument :=
  fun s => { text := s, tokens := [], ents := [] }

/-- Witness for C7: determinism evaluated at a concrete model and input. -/
theorem C7_deterministic_witness :
    process_text echo_model "hola" = process_text echo_model "hola" :=
  C7_deterministic echo_model "hola" "hola" rfl

/-- C8: with any `sys.argv` length other than 2 (the script name plus
exactly one positional argument), the CLI prints the usage line, exits with
status 1, and produces no JSON output, whether or not the model loads. -/
theorem C8_wrong_argument_count (load : Option (String → AnnotatedDocument))
    (argv : List String) (h : argv.length ≠ 2) :
    main_cli load argv = { printed := [usage_message], exit_code := 1, json := none } := by
  simp [main_cli, h]

/-- Witness for C8: the CLI invoked with no positional argument. -/
theorem C8_wrong_argument_count_witness :
    main_cli (some echo_model) ["spacyProcessor.py"] =
      { printed := [usage_message], exit_code := 1, json := none } :=
  C8_wrong_argument_count (some echo_model) ["spacyProcessor.py"] (by decide)

/-- C9: when the model resource cannot be loaded and the argument count is
right, the CLI prints the remediation line and stops with exit status 1
before processing any text, producing no JSON output. -/
theorem C9_model_unavailable (argv : List String) (h : argv.length = 2) :
    main_cli none argv =
      { printed := [model_error_message], exit_code := 1, json := none } := by
  simp [main_cli, h]

/-- Witness for C9: a valid single-argument invocation with the model
absent. -/
theorem C9_model_unavailable_witness :
    main_cli none ["spacyProcessor.py", "Hola mundo"] =
      { printed := [model_error_message], exit_code := 1, json := none } :=
  C9_model_unavailable ["spacyProcessor.py", "Hola mundo"] (by decide)

/-- A document with no tokens and no entity spans whose text nevertheless
contains a negative lexicon word: the sentiment label reads the document's
raw text, not its tokens. -/
def empty_tokens_doc : AnnotatedDocument := { text := "malo", tokens := [], ents := [] }

/-- C10 counterexample: a document with no tokens and no entity spans whose
text is "malo" yields sentiment "negative", not "neutral". -/
theorem C10_counterexample :
    empty_tokens_doc.tokens = [] ∧ empty_tokens_doc.ents = [] ∧
    (process_text (fun _ => empty_tokens_doc) "").sentiment = "negative" := by decide

/-- C10 amended: for every document with no tokens, no entity spans and
empty text — in particular the model's output on the empty input when it
returns the empty document — all six sequences of the result are empty and
the sentiment is "neutral". -/
theorem C10_empty_document (nlp : String → AnnotatedDocument) (text : String)
    (h1 : (nlp text).tokens = []) (h2 : (nlp text).ents = [])
    (h3 : (nlp text).text = "") :
    (process_text nlp text).tokens = [] ∧ (process_text nlp text).entities = [] ∧
    (process_text nlp text).pos_tags = [] ∧ (process_text nlp text).dependencies = [] ∧
    (process_text nlp text).lemmas = [] ∧ (process_text nlp text).keywords = [] ∧
    (process_text nlp text).sentiment = "neutral" := by
  have hsent : analyze_sentiment (nlp text) = "neutral" := by
    unfold analyze_sentiment positive_count negative_count
    rw [h3]
    rfl
  have hkw : extract_keywords (nlp text) = [] := by
    unfold extract_keywords
    rw [h1]
    rfl
  refine ⟨?_, ?_, ?_, ?_, ?_, ?_, ?_⟩ <;>
    simp [process_text, h1, h2, token_loop, hsent, hkw]

/-- Witness for C10: the amended statement evaluated at a model that sends
every input to the empty document. -/
theorem C10_empty_document_witness :
    (process_text (fun _ => ({ text := "", tokens := [], ents := [] } : AnnotatedDocument))
        "").tokens = [] ∧
    (process_text (fun _ => ({ text := "", tokens := [], ents := [] } : AnnotatedDocument))
        "").entities = [] ∧
    (process_text (fun _ => ({ text := "", tokens := [], ents := [] } : AnnotatedDocument))
        "").pos_tags = [] ∧
    (process_text (fun _ => ({ text := "", tokens := [], ents := [] } : AnnotatedDocument))
        "").dependencies = [] ∧
    (process_text (fun _ => ({ text := "", tokens := [], ents := [] } : AnnotatedDocument))
        "").lemmas = [] ∧
    (process_text (fun _ => ({ text := "", tokens := [], ents := [] } : AnnotatedDocument))
        "").keywords = [] ∧
    (process_text (fun _ => ({ text := "", tokens := [], ents := [] } : AnnotatedDocument))
        "").sentiment = "neutral" :=
  C10_empty_document (fun _ => ({ text := "", tokens := [], ents := [] } : AnnotatedDocument))
    "" rfl rfl rfl
